import Mathlib

/-!
Shallow embedding of `src/components/timeline/LocalTrack.js`, the local-track
timeline row component of the profiler. The component has two computational
parts: `mapStateToProps`, which derives the track name, tooltip title,
selection flag and hidden flag from global state, and the render methods,
which dispatch on the track descriptor's type tag. Event handlers dispatch
commands to the store; the close-button handler also stops event propagation.
-/

namespace Profiler

/-- A JavaScript runtime value, restricted to the shapes that appear in the
strict-equality comparison of the event-delay branch (a number compared
against a boolean). -/
inductive JSVal where
  | num (n : Nat)
  | bool (b : Bool)
  deriving DecidableEq

/-- JavaScript strict equality (the operator written with three equals signs):
operands of different runtime types are never equal; operands of the same
type compare by value. -/
def jsStrictEq : JSVal → JSVal → Bool
  | JSVal.num a, JSVal.num b => a == b
  | JSVal.bool a, JSVal.bool b => a == b
  | _, _ => false

/-- A local-track descriptor as it exists at runtime: an object carrying a
string `type` tag and the payload fields that the branches of the component
read (`threadIndex` for thread-keyed variants, `counterIndex` for
counter-keyed variants, and the marker schema and name for the marker
variant). The `switch (localTrack.type)` statements of the source dispatch
on the string tag. -/
structure LocalTrack where
  type : String
  threadIndex : Nat
  counterIndex : Nat
  markerSchema : String
  markerName : String
  deriving DecidableEq

/-- The closed set of type tags handled by the source's switch statements
(`thread`, `network`, `memory`, `bandwidth`, `ipc`, `event-delay`,
`process-cpu`, `power`, `marker`). -/
def localTrackTypes : List String :=
  ["thread", "network", "memory", "bandwidth", "ipc", "event-delay",
   "process-cpu", "power", "marker"]

/-- The slice of global application state read by this component, presented
through the selectors the source imports: the selected-thread-index set
(`getSelectedThreadIndexes`), the active tab (`getSelectedTab`), the hidden
local tracks per process (`getHiddenLocalTracks`), the local-track name
lookup (`getLocalTrackName`), the per-thread process-details string
(`getThreadSelectors(i).getThreadProcessDetails`), and the per-counter
description string (`getCounterSelectors(i).getDescription`). -/
structure AppState where
  selectedThreadIndexes : List Nat
  selectedTab : String
  hiddenLocalTracks : Nat → List Nat
  localTrackName : Nat → Nat → String
  threadProcessDetails : Nat → String
  counterDescription : Nat → String

/-- The derived props that `mapStateToProps` returns. -/
structure StateProps where
  trackName : String
  titleText : Option String
  isSelected : Bool
  isHidden : Bool
  deriving DecidableEq

/-- `mapStateToProps` of the source: `titleText` starts `null` and
`isSelected` starts `false`; the switch on `localTrack.type` assigns them per
variant; the default case throws (`assertExhaustiveCheck`), modelled as
`Except.error`. On success the returned object also carries the track name
(`getLocalTrackName(state, pid, trackIndex)`) and the hidden flag
(`getHiddenLocalTracks(state, pid).has(trackIndex)`), which are computed
uniformly for every variant. -/
def mapStateToProps (state : AppState) (pid : Nat) (localTrack : LocalTrack)
    (trackIndex : Nat) : Except String StateProps :=
  let selectedThreadIndexes := state.selectedThreadIndexes
  let trackName := state.localTrackName pid trackIndex
  let isHidden := (state.hiddenLocalTracks pid).contains trackIndex
  if localTrack.type == "thread" then
    let threadIndex := localTrack.threadIndex
    let selectedTab := state.selectedTab
    Except.ok
      { trackName := trackName
        titleText := some (state.threadProcessDetails threadIndex)
        isSelected := selectedThreadIndexes.contains threadIndex &&
          !(selectedTab == "network-chart")
        isHidden := isHidden }
  else if localTrack.type == "network" then
    let threadIndex := localTrack.threadIndex
    let selectedTab := state.selectedTab
    Except.ok
      { trackName := trackName
        titleText := none
        isSelected := selectedThreadIndexes.contains threadIndex &&
          (selectedTab == "network-chart")
        isHidden := isHidden }
  else if localTrack.type == "marker" || localTrack.type == "ipc" then
    let threadIndex := localTrack.threadIndex
    let selectedTab := state.selectedTab
    Except.ok
      { trackName := trackName
        titleText := none
        isSelected := selectedThreadIndexes.contains threadIndex &&
          (selectedTab == "marker-chart")
        isHidden := isHidden }
  else if localTrack.type == "event-delay" then
    let threadIndex := localTrack.threadIndex
    Except.ok
      { trackName := trackName
        titleText := some ("Event Delay of " ++
          state.threadProcessDetails threadIndex)
        isSelected := jsStrictEq (JSVal.num threadIndex)
          (JSVal.bool (selectedThreadIndexes.contains threadIndex))
        isHidden := isHidden }
  else if localTrack.type == "memory" || localTrack.type == "bandwidth" ||
      localTrack.type == "process-cpu" || localTrack.type == "power" then
    Except.ok
      { trackName := trackName
        titleText := some (state.counterDescription localTrack.counterIndex)
        isSelected := false
        isHidden := isHidden }
  else
    Except.error "Unhandled LocalTrack type."

/-- The visual sub-component chosen by `renderTrack`, carrying exactly the
props the source passes to it. -/
inductive TrackElement where
  | timelineTrackThread (threadsKey : Nat) (trackType : String)
      (trackName : String)
  | trackNetwork (threadIndex : Nat)
  | trackMemory (counterIndex : Nat)
  | trackBandwidth (counterIndex : Nat)
  | trackIPC (threadIndex : Nat)
  | trackEventDelay (threadIndex : Nat)
  | trackProcessCPU (counterIndex : Nat)
  | trackPower (counterIndex : Nat)
  | trackCustomMarker (threadIndex : Nat) (markerSchema : String)
      (markerName : String)
  deriving DecidableEq

/-- `renderTrack` of the source: dispatch on the type tag to a sub-component;
the default case logs an error to the console and returns `null`. The result
pairs the rendered element (or `none`) with the list of console-error
messages emitted. -/
def renderTrack (localTrack : LocalTrack) (trackName : String) :
    Option TrackElement × List String :=
  if localTrack.type == "thread" then
    (some (TrackElement.timelineTrackThread localTrack.threadIndex "expanded"
      trackName), [])
  else if localTrack.type == "network" then
    (some (TrackElement.trackNetwork localTrack.threadIndex), [])
  else if localTrack.type == "memory" then
    (some (TrackElement.trackMemory localTrack.counterIndex), [])
  else if localTrack.type == "bandwidth" then
    (some (TrackElement.trackBandwidth localTrack.counterIndex), [])
  else if localTrack.type == "ipc" then
    (some (TrackElement.trackIPC localTrack.threadIndex), [])
  else if localTrack.type == "event-delay" then
    (some (TrackElement.trackEventDelay localTrack.threadIndex), [])
  else if localTrack.type == "process-cpu" then
    (some (TrackElement.trackProcessCPU localTrack.counterIndex), [])
  else if localTrack.type == "power" then
    (some (TrackElement.trackPower localTrack.counterIndex), [])
  else if localTrack.type == "marker" then
    (some (TrackElement.trackCustomMarker localTrack.threadIndex
      localTrack.markerSchema localTrack.markerName), [])
  else
    (none, ["Unhandled localTrack type"])

/-- The render output of the component: either the inert hidden stub
(`<li className="timelineTrackHidden" />`, no children, no handlers), or the
interactive track row carrying the selection flag, tooltip title, track name
and the dispatched track element. -/
inductive RenderOutput where
  | hiddenStub
  | trackRow (selected : Bool) (titleText : Option String) (trackName : String)
      (track : Option TrackElement)
  deriving DecidableEq

/-- The interactive event handlers wired into each render output: the hidden
stub attaches none; the track row attaches the row click handler, the
context-menu handler and the close-button click handler. -/
def RenderOutput.handlers : RenderOutput → List String
  | RenderOutput.hiddenStub => []
  | RenderOutput.trackRow _ _ _ _ =>
      ["onClick", "onContextMenu", "closeButtonOnClick"]

/-- `render` of the source: if `isHidden`, return the stub `li` element;
otherwise build the track row with the selection class, the title attribute,
the name button and the dispatched track element. -/
def render (props : StateProps) (localTrack : LocalTrack) : RenderOutput :=
  if props.isHidden then
    RenderOutput.hiddenStub
  else
    RenderOutput.trackRow props.isSelected props.titleText props.trackName
      (renderTrack localTrack props.trackName).fst

/-- The track reference built by `_getTrackReference`:
`{ type: 'local', pid, trackIndex }`. -/
structure TrackReference where
  type : String
  pid : Nat
  trackIndex : Nat
  deriving DecidableEq

/-- Selection modifiers computed from the input event
(ctrl/cmd for multi-select, shift for range-select). -/
structure SelectionModifiers where
  multi : Bool
  range : Bool
  deriving DecidableEq

/-- The commands this component dispatches to the store. -/
inductive Command where
  | changeRightClickedTrack (ref : TrackReference)
  | selectTrackWithModifiers (ref : TrackReference)
      (modifiers : SelectionModifiers)
  | hideLocalTrack (pid : Nat) (trackIndex : Nat)
  deriving DecidableEq

/-- `_getTrackReference` of the source. -/
def getTrackReference (pid trackIndex : Nat) : TrackReference :=
  { type := "local", pid := pid, trackIndex := trackIndex }

/-- The observable outcome of running one event handler: the commands it
dispatched, and whether it called `stopPropagation` on the event. -/
structure HandlerResult where
  dispatched : List Command
  stoppedPropagation : Bool
  deriving DecidableEq

/-- `_hideCurrentTrack` of the source: dispatch
`hideLocalTrack(pid, trackIndex)` and stop the event's propagation. -/
def hideCurrentTrack (pid trackIndex : Nat) : HandlerResult :=
  { dispatched := [Command.hideLocalTrack pid trackIndex]
    stoppedPropagation := true }

/-- `_selectCurrentTrack` of the source: dispatch
`selectTrackWithModifiers(trackReference, modifiers)`; it does not stop
propagation. -/
def selectCurrentTrack (pid trackIndex : Nat)
    (modifiers : SelectionModifiers) : HandlerResult :=
  { dispatched := [Command.selectTrackWithModifiers
      (getTrackReference pid trackIndex) modifiers]
    stoppedPropagation := false }

/-- DOM event-propagation semantics for one activation of the close button:
the button's own click handler (`_hideCurrentTrack`) runs first; the event
then bubbles to the enclosing row's click handler (`_selectCurrentTrack`)
only if propagation was not stopped. The result is the full list of commands
issued by the activation. -/
def closeButtonActivation (pid trackIndex : Nat)
    (modifiers : SelectionModifiers) : List Command :=
  let closeResult := hideCurrentTrack pid trackIndex
  closeResult.dispatched ++
    (if closeResult.stoppedPropagation then []
     else (selectCurrentTrack pid trackIndex modifiers).dispatched)

/-- `componentDidMount` of the source: if the row mounts with
`isSelected = true`, call `setIsInitialSelectedPane(true)` once; otherwise
call nothing. The result is the list of values passed to the parent
callback during that mount. -/
def componentDidMount (isSelected : Bool) : List Bool :=
  if isSelected then [true] else []

end Profiler

namespace Profiler

/-! Concrete fixtures used by the witness theorems. -/

/-- A concrete application state: thread 5 selected, active tab `calltree`,
process 7 hides its local track 2. -/
def wState : AppState :=
  { selectedThreadIndexes := [5]
    selectedTab := "calltree"
    hiddenLocalTracks := fun p => if p = 7 then [2] else []
    localTrackName := fun _ _ => "DOM Worker"
    threadProcessDetails := fun i => "details-" ++ toString i
    counterDescription := fun i => "counter-" ++ toString i }

/-- The fixture state with the network tab active. -/
def wNetState : AppState := { wState with selectedTab := "network-chart" }

/-- The fixture state with the marker tab active. -/
def wMarkerState : AppState := { wState with selectedTab := "marker-chart" }

/-- A concrete memory descriptor with counter index 3. -/
def wMemoryTrack : LocalTrack := ⟨"memory", 0, 3, "", ""⟩

/-- A concrete descriptor whose type tag is outside the closed set. -/
def wUnknownTrack : LocalTrack := ⟨"flame-graph", 0, 0, "", ""⟩

/-- The props that `mapStateToProps` derives for `wMemoryTrack` at process 7,
track index 2, in `wState`. -/
def wProps : StateProps :=
  { trackName := "DOM Worker"
    titleText := some "counter-3"
    isSelected := false
    isHidden := true }

end Profiler

namespace Profiler

/-! Claim theorems. -/

/-- C1: for every thread track descriptor, `mapStateToProps` succeeds and its
`isSelected` is true iff the descriptor's thread index is in the
selected-thread set and the active tab is not `network-chart`; in particular,
a selected thread index with the `network-chart` tab active yields
`isSelected = false`. -/
theorem thread_selected_iff_in_set_and_not_network_tab (s : AppState)
    (pid trackIndex threadIndex counterIndex : Nat)
    (markerSchema markerName : String) :
    ∃ props : StateProps,
      mapStateToProps s pid
        ⟨"thread", threadIndex, counterIndex, markerSchema, markerName⟩
        trackIndex = Except.ok props ∧
      (props.isSelected = true ↔
        (s.selectedThreadIndexes.contains threadIndex = true ∧
          s.selectedTab ≠ "network-chart")) ∧
      (s.selectedThreadIndexes.contains threadIndex = true →
        s.selectedTab = "network-chart" → props.isSelected = false) := by
  refine ⟨_, rfl, ?_, ?_⟩
  · simp [mapStateToProps]
  · intro hmem htab
    simp [mapStateToProps, htab, hmem]

/-- C1 witness: in the fixture state (thread 5 selected, tab `calltree`), a
thread descriptor with thread index 5 resolves with `isSelected = true`. -/
theorem thread_selected_iff_in_set_and_not_network_tab_witness :
    ∃ props : StateProps,
      mapStateToProps wState 7 ⟨"thread", 5, 0, "", ""⟩ 0 =
        Except.ok props ∧
      props.isSelected = true := by
  obtain ⟨props, hok, hiff, hpart⟩ :=
    thread_selected_iff_in_set_and_not_network_tab wState 7 0 5 0 "" ""
  exact ⟨props, hok, hiff.mpr ⟨by decide, by decide⟩⟩

/-- C2: for every network track descriptor, `mapStateToProps` succeeds, its
`isSelected` is true iff the descriptor's thread index is in the
selected-thread set and the active tab is `network-chart`, and its
`titleText` is `none`. -/
theorem network_selected_iff_in_set_and_network_tab (s : AppState)
    (pid trackIndex threadIndex counterIndex : Nat)
    (markerSchema markerName : String) :
    ∃ props : StateProps,
      mapStateToProps s pid
        ⟨"network", threadIndex, counterIndex, markerSchema, markerName⟩
        trackIndex = Except.ok props ∧
      (props.isSelected = true ↔
        (s.selectedThreadIndexes.contains threadIndex = true ∧
          s.selectedTab = "network-chart")) ∧
      props.titleText = none := by
  refine ⟨_, rfl, ?_, rfl⟩
  simp [mapStateToProps]

/-- C2 witness: in the fixture state with the `network-chart` tab active, a
network descriptor with the selected thread index 5 resolves with
`isSelected = true` and no title. -/
theorem network_selected_iff_in_set_and_network_tab_witness :
    ∃ props : StateProps,
      mapStateToProps wNetState 7 ⟨"network", 5, 0, "", ""⟩ 0 =
        Except.ok props ∧
      props.isSelected = true ∧ props.titleText = none := by
  obtain ⟨props, hok, hiff, htitle⟩ :=
    network_selected_iff_in_set_and_network_tab wNetState 7 0 5 0 "" ""
  exact ⟨props, hok, hiff.mpr ⟨by decide, by decide⟩, htitle⟩

/-- C3: for every marker and every ipc track descriptor, `mapStateToProps`
succeeds, its `isSelected` is true iff the active tab is `marker-chart` and
the descriptor's thread index is in the selected-thread set, and its
`titleText` is `none`. -/
theorem marker_ipc_selected_iff_marker_tab_and_in_set (s : AppState)
    (pid trackIndex threadIndex counterIndex : Nat)
    (markerSchema markerName : String) :
    (∃ props : StateProps,
      mapStateToProps s pid
        ⟨"marker", threadIndex, counterIndex, markerSchema, markerName⟩
        trackIndex = Except.ok props ∧
      (props.isSelected = true ↔
        (s.selectedTab = "marker-chart" ∧
          s.selectedThreadIndexes.contains threadIndex = true)) ∧
      props.titleText = none) ∧
    (∃ props : StateProps,
      mapStateToProps s pid
        ⟨"ipc", threadIndex, counterIndex, markerSchema, markerName⟩
        trackIndex = Except.ok props ∧
      (props.isSelected = true ↔
        (s.selectedTab = "marker-chart" ∧
          s.selectedThreadIndexes.contains threadIndex = true)) ∧
      props.titleText = none) := by
  constructor
  · refine ⟨_, rfl, ?_, rfl⟩
    simp [mapStateToProps, and_comm]
  · refine ⟨_, rfl, ?_, rfl⟩
    simp [mapStateToProps, and_comm]

/-- C3 witness: in the fixture state with the `marker-chart` tab active, both
a marker and an ipc descriptor with the selected thread index 5 resolve with
`isSelected = true` and no title. -/
theorem marker_ipc_selected_iff_marker_tab_and_in_set_witness :
    (∃ props : StateProps,
      mapStateToProps wMarkerState 7 ⟨"marker", 5, 0, "", ""⟩ 0 =
        Except.ok props ∧
      props.isSelected = true ∧ props.titleText = none) ∧
    (∃ props : StateProps,
      mapStateToProps wMarkerState 7 ⟨"ipc", 5, 0, "", ""⟩ 0 =
        Except.ok props ∧
      props.isSelected = true ∧ props.titleText = none) := by
  obtain ⟨⟨p1, hok1, hiff1, ht1⟩, ⟨p2, hok2, hiff2, ht2⟩⟩ :=
    marker_ipc_selected_iff_marker_tab_and_in_set wMarkerState 7 0 5 0 "" ""
  exact ⟨⟨p1, hok1, hiff1.mpr ⟨by decide, by decide⟩, ht1⟩,
    ⟨p2, hok2, hiff2.mpr ⟨by decide, by decide⟩, ht2⟩⟩

/-- C4: for every event-delay track descriptor, `mapStateToProps` succeeds and
its `isSelected` is false regardless of the state, because the source
compares the numeric thread index against the boolean result of the set
lookup with strict equality, which never holds. -/
theorem event_delay_never_selected (s : AppState)
    (pid trackIndex threadIndex counterIndex : Nat)
    (markerSchema markerName : String) :
    ∃ props : StateProps,
      mapStateToProps s pid
        ⟨"event-delay", threadIndex, counterIndex, markerSchema, markerName⟩
        trackIndex = Except.ok props ∧
      props.isSelected = false := by
  refine ⟨_, rfl, ?_⟩
  simp [mapStateToProps, jsStrictEq]

/-- C4 witness: in the fixture state, an event-delay descriptor whose thread
index 5 is in the selected set still resolves with `isSelected = false`. -/
theorem event_delay_never_selected_witness :
    ∃ props : StateProps,
      mapStateToProps wState 7 ⟨"event-delay", 5, 0, "", ""⟩ 0 =
        Except.ok props ∧
      props.isSelected = false :=
  event_delay_never_selected wState 7 0 5 0 "" ""

/-- C5: for every memory, bandwidth, process-cpu or power track descriptor,
`mapStateToProps` succeeds, its `isSelected` is false, and its `titleText` is
the counter-description string looked up by the descriptor's counter
index. -/
theorem counter_tracks_unselected_with_counter_description (s : AppState)
    (pid trackIndex threadIndex counterIndex : Nat)
    (markerSchema markerName : String) :
    ∀ tag ∈ ["memory", "bandwidth", "process-cpu", "power"],
      ∃ props : StateProps,
        mapStateToProps s pid
          ⟨tag, threadIndex, counterIndex, markerSchema, markerName⟩
          trackIndex = Except.ok props ∧
        props.isSelected = false ∧
        props.titleText = some (s.counterDescription counterIndex) := by
  intro tag htag
  fin_cases htag <;> exact ⟨_, rfl, rfl, rfl⟩

/-- C5 witness: the spec's scenario — descriptor memory with counter index 3,
process 7, track index 2 in the fixture state — resolves with
`isSelected = false` and title `counter-description(3)`. -/
theorem counter_tracks_unselected_with_counter_description_witness :
    ∃ props : StateProps,
      mapStateToProps wState 7 ⟨"memory", 0, 3, "", ""⟩ 2 =
        Except.ok props ∧
      props.isSelected = false ∧
      props.titleText = some (wState.counterDescription 3) :=
  counter_tracks_unselected_with_counter_description wState 7 2 0 3 "" ""
    "memory" (by decide)

end Profiler

namespace Profiler

/-- C6: whenever `mapStateToProps` succeeds, the returned `isHidden` is true
iff the track index is in the per-process hidden-local-tracks set for the
process id; and whenever `isHidden` is true, `render` produces the inert
hidden stub, which has no interactive handlers, regardless of the
descriptor. -/
theorem hidden_iff_in_hidden_set_and_stub_render (s : AppState)
    (pid trackIndex : Nat) (lt : LocalTrack) (props : StateProps)
    (h : mapStateToProps s pid lt trackIndex = Except.ok props) :
    (props.isHidden = true ↔
      (s.hiddenLocalTracks pid).contains trackIndex = true) ∧
    (props.isHidden = true →
      render props lt = RenderOutput.hiddenStub ∧
      (render props lt).handlers = []) := by
  constructor
  · simp only [mapStateToProps] at h
    repeat any_goals split at h
    all_goals first
      | (obtain rfl := (Except.ok.inj h).symm; simp)
      | simp at h
  · intro hh
    simp [render, hh, RenderOutput.handlers]

/-- C6 witness: in the fixture state, the memory descriptor at process 7,
track index 2 (which is in that process's hidden set) resolves to `wProps`,
whose `isHidden` is true, and `render` on it is the handler-free stub. -/
theorem hidden_iff_in_hidden_set_and_stub_render_witness :
    (wProps.isHidden = true ↔
      (wState.hiddenLocalTracks 7).contains 2 = true) ∧
    (wProps.isHidden = true →
      render wProps wMemoryTrack = RenderOutput.hiddenStub ∧
      (render wProps wMemoryTrack).handlers = []) :=
  hidden_iff_in_hidden_set_and_stub_render wState 7 2 wMemoryTrack wProps rfl

/-- C7: on a descriptor whose type tag is outside the closed variant set,
`mapStateToProps` fails fast with an error while `renderTrack` returns no
element and logs a console error instead of throwing; on every tag inside the
closed set, `mapStateToProps` returns successfully. -/
theorem unknown_type_resolver_throws_renderer_logs (s : AppState)
    (pid trackIndex : Nat) (lt : LocalTrack) (trackName : String) :
    (lt.type ∉ localTrackTypes →
      mapStateToProps s pid lt trackIndex =
        Except.error "Unhandled LocalTrack type." ∧
      (renderTrack lt trackName).fst = none ∧
      (renderTrack lt trackName).snd = ["Unhandled localTrack type"]) ∧
    (lt.type ∈ localTrackTypes →
      ∃ props : StateProps,
        mapStateToProps s pid lt trackIndex = Except.ok props) := by
  obtain ⟨ty, threadIndex, counterIndex, markerSchema, markerName⟩ := lt
  constructor
  · intro hout
    simp only [localTrackTypes, List.mem_cons, List.not_mem_nil, or_false,
      not_or] at hout
    obtain ⟨h1, h2, h3, h4, h5, h6, h7, h8, h9⟩ := hout
    refine ⟨?_, ?_, ?_⟩ <;>
      simp [mapStateToProps, renderTrack, h1, h2, h3, h4, h5, h6, h7, h8, h9]
  · intro hin
    simp only [localTrackTypes, List.mem_cons, List.not_mem_nil,
      or_false] at hin
    rcases hin with h | h | h | h | h | h | h | h | h <;>
      (subst h; exact ⟨_, rfl⟩)

/-- C7 witness: on the concrete unknown tag `flame-graph` the resolver
errors while the renderer yields no element plus a log entry, and on the
concrete known tag `memory` the resolver succeeds. -/
theorem unknown_type_resolver_throws_renderer_logs_witness :
    (mapStateToProps wState 7 wUnknownTrack 0 =
        Except.error "Unhandled LocalTrack type." ∧
      (renderTrack wUnknownTrack "n").fst = none ∧
      (renderTrack wUnknownTrack "n").snd =
        ["Unhandled localTrack type"]) ∧
    (∃ props : StateProps,
      mapStateToProps wState 7 wMemoryTrack 2 = Except.ok props) :=
  ⟨(unknown_type_resolver_throws_renderer_logs wState 7 0 wUnknownTrack
      "n").1 (by decide),
   (unknown_type_resolver_throws_renderer_logs wState 7 2 wMemoryTrack
      "n").2 (by decide)⟩

/-- C8: for every event-delay track descriptor, `mapStateToProps` succeeds
and its `titleText` is the string `Event Delay of ` concatenated with the
process-details string looked up by the descriptor's thread index. -/
theorem event_delay_title_prefixes_process_details (s : AppState)
    (pid trackIndex threadIndex counterIndex : Nat)
    (markerSchema markerName : String) :
    ∃ props : StateProps,
      mapStateToProps s pid
        ⟨"event-delay", threadIndex, counterIndex, markerSchema, markerName⟩
        trackIndex = Except.ok props ∧
      props.titleText =
        some ("Event Delay of " ++ s.threadProcessDetails threadIndex) :=
  ⟨_, rfl, rfl⟩

/-- C8 witness: in the fixture state, the event-delay descriptor for thread 5
resolves with title `Event Delay of details-5`. -/
theorem event_delay_title_prefixes_process_details_witness :
    ∃ props : StateProps,
      mapStateToProps wState 7 ⟨"event-delay", 5, 0, "", ""⟩ 0 =
        Except.ok props ∧
      props.titleText =
        some ("Event Delay of " ++ wState.threadProcessDetails 5) :=
  event_delay_title_prefixes_process_details wState 7 0 5 0 "" ""

/-- C9: a single close-button activation issues exactly the hide-track
command carrying the process id and track index, stops the event's
propagation, and never issues any select-track command. -/
theorem close_button_hides_and_stops_event (pid trackIndex : Nat)
    (modifiers : SelectionModifiers) :
    closeButtonActivation pid trackIndex modifiers =
      [Command.hideLocalTrack pid trackIndex] ∧
    (hideCurrentTrack pid trackIndex).stoppedPropagation = true ∧
    ∀ ref m, Command.selectTrackWithModifiers ref m ∉
      closeButtonActivation pid trackIndex modifiers := by
  refine ⟨rfl, rfl, ?_⟩
  intro ref m hmem
  simp [closeButtonActivation, hideCurrentTrack] at hmem

/-- C9 witness: the close-button activation at process 7, track index 2 with
no modifiers issues exactly the hide command, with propagation stopped and no
select command. -/
theorem close_button_hides_and_stops_event_witness :
    closeButtonActivation 7 2 ⟨false, false⟩ =
      [Command.hideLocalTrack 7 2] ∧
    (hideCurrentTrack 7 2).stoppedPropagation = true ∧
    ∀ ref m, Command.selectTrackWithModifiers ref m ∉
      closeButtonActivation 7 2 ⟨false, false⟩ :=
  close_button_hides_and_stops_event 7 2 ⟨false, false⟩

/-- C10: per mount, the first-selected-pane notification fires at most once,
it fires exactly once iff the row's selection state is true at mount, and an
unselected mount sends no notification. -/
theorem mount_notification_at_most_once_iff_selected (isSelected : Bool) :
    (componentDidMount isSelected).length ≤ 1 ∧
    ((componentDidMount isSelected).length = 1 ↔ isSelected = true) ∧
    componentDidMount false = [] := by
  cases isSelected <;> simp [componentDidMount]

/-- C10 witness: a row mounting selected notifies exactly once; a row
mounting unselected notifies nothing. -/
theorem mount_notification_at_most_once_iff_selected_witness :
    (componentDidMount true).length ≤ 1 ∧
    ((componentDidMount true).length = 1 ↔ true = true) ∧
    componentDidMount false = [] :=
  mount_notification_at_most_once_iff_selected true

end Profiler
